import Mathlib

/-!
# Design Token Extraction & Aggregation Engine — verification development

Shallow embedding of the analyzer service of the website_analyser_agent
repository (`src/services/analyzer.js`): token collectors, the
perceptual-distance color clustering, the typography normalizer, the CSS
framework detector, and the multi-source style-guide synthesizer
(`generateStyleGuide`).

Modelling conventions:
* JavaScript `Map`s (insertion-ordered, unique keys) are association lists
  `List (String × Nat)`; `map.set(k, (map.get(k) || 0) + w)` is `bump`.
* `Array.prototype.sort` with comparator `(a, b) => b[1] - a[1]` is a stable
  descending sort; any stable sort realizes the same output, we use a stable
  insertion sort `sortDesc`.
* The external chroma-js library is abstracted by a `ChromaLib` structure:
  `parses` tells whether `chroma(color)` succeeds, and `deltaE`, `chromaVal`,
  `luminance` give the numeric results as exact rationals (the code guards
  every call with try/catch keyed on parse success, which the embedding
  mirrors with explicit `parses` tests).  The dedup threshold
  `0.15 * 100` is modelled as the exact rational `15`.
* `Math.round` on a nonnegative float is `jsRound q = ⌊q + 1/2⌋`.
-/

namespace WSA

/-! ## Basic string and character helpers -/

/-- Whitespace characters recognised by the JavaScript `\s` class (the subset
relevant to the analyzed strings). -/
def isWS (c : Char) : Bool :=
  c == ' ' || c == '\t' || c == '\n' || c == '\r'

/-- Lower-case a character list (JS `toLowerCase` on ASCII input). -/
def lowerChars (l : List Char) : List Char :=
  l.map Char.toLower

/-- Lower-case a string. -/
def toLowerStr (s : String) : String :=
  String.mk (lowerChars s.data)

/-- Drop trailing characters satisfying `p`. -/
def dropTrailing (p : Char → Bool) (l : List Char) : List Char :=
  (l.reverse.dropWhile p).reverse

/-- JS `String.prototype.trim` on a character list. -/
def trimChars (l : List Char) : List Char :=
  dropTrailing isWS (l.dropWhile isWS)

/-- Substring test: does `needle` occur contiguously inside `hay`?
(JS `String.prototype.includes`.) -/
def containsSubList (needle : List Char) : List Char → Bool
  | [] => needle.isEmpty
  | c :: rest => needle.isPrefixOf (c :: rest) || containsSubList needle rest

/-- `hay.includes(needle)` on strings. -/
def containsStr (hay needle : String) : Bool :=
  containsSubList needle.data hay.data

/-- `split(/\s+/)`: split at maximal whitespace runs, keeping the empty
boundary fields JS produces at the ends.  The first argument records whether
we are currently inside a whitespace run (current field already flushed). -/
def splitWSAux : Bool → List Char → List Char → List (List Char)
  | _, cur, [] => [cur.reverse]
  | inWs, cur, c :: rest =>
    if isWS c then
      if inWs then splitWSAux true [] rest
      else cur.reverse :: splitWSAux true [] rest
    else splitWSAux false (c :: cur) rest

/-- JS `s.split(/\s+/)`. -/
def splitWS (s : String) : List String :=
  (splitWSAux false [] s.data).map String.mk

/-! ## Frequency maps (JS `Map` of string → occurrence count) -/

/-- Insertion-ordered frequency map. -/
abbrev FreqMap := List (String × Nat)

/-- `map.set(k, (map.get(k) || 0) + w)`: increment an existing key in place,
otherwise append the new key at the end (JS `Map` insertion order). -/
def bump (m : FreqMap) (k : String) (w : Nat) : FreqMap :=
  if m.any (fun p => p.1 == k) then
    m.map (fun p => if p.1 == k then (p.1, p.2 + w) else p)
  else
    m ++ [(k, w)]

/-- `(map.get(k) || 0)`. -/
def lookupCount (m : FreqMap) (k : String) : Nat :=
  ((m.find? (fun p => p.1 == k)).map Prod.snd).getD 0

/-- Stable insertion step for a descending sort by count: `x` is placed after
every element whose count is at least `x`'s, so equal counts keep their
original relative order. -/
def insertDesc (x : String × Nat) : List (String × Nat) → List (String × Nat)
  | [] => [x]
  | y :: ys => if x.2 < y.2 then y :: insertDesc x ys else x :: y :: ys

/-- Stable sort by descending count: the unique output of the JS stable
`sort((a, b) => b[1] - a[1])`. -/
def sortDesc : List (String × Nat) → List (String × Nat)
  | [] => []
  | x :: xs => insertDesc x (sortDesc xs)

/-- `Math.round` for the nonnegative rationals produced by the confidence
computation: round half away from zero, i.e. `⌊q + 1/2⌋`. -/
def jsRound (q : ℚ) : ℤ := ⌊q + 1 / 2⌋

/-! ## The chroma-js abstraction -/

/-- Abstraction of the chroma-js color library.  `parses c` holds when
`chroma(c)` succeeds; the numeric operations are total functions whose values
are only consulted under a `parses` guard, exactly where the source wraps the
corresponding call in try/catch.  `shadeRamp` abstracts the luminance-sampled
10-step shade generation of `generateStyleGuide` (`none` models the catch
branch of that block). -/
structure ChromaLib where
  parses : String → Bool
  deltaE : String → String → ℚ
  chromaVal : String → ℚ
  luminance : String → ℚ
  shadeRamp : String → Option (List (Nat × String))

/-- Values excluded before color-syntax validation (`isValidColor`), checked
case-insensitively. -/
def excludedColorValues : List String :=
  ["transparent", "inherit", "initial", "currentcolor", "none"]

/-- `isValidColor`: not one of the excluded keywords (case-insensitively) and
parseable by chroma. -/
def isValidColor (lib : ChromaLib) (c : String) : Bool :=
  !(excludedColorValues.contains (toLowerStr c)) && lib.parses c

/-! ## Color clustering (`processColors`) -/

/-- One similarity test of the greedy dedup pass: `chroma.deltaE(c, e)` is
below the threshold `0.15 * 100 = 15`; a throw (either color unparseable) is
caught and treated as "not similar". -/
def simPred (lib : ChromaLib) (c e : String) : Bool :=
  if lib.parses c && lib.parses e then decide (lib.deltaE c e < 15) else false

/-- One step of the greedy accept-or-drop pass: the candidate is dropped iff
it is similar to some already-accepted color. -/
def dedupStep (lib : ChromaLib) (acc : List String) (c : String) : List String :=
  if acc.any (simPred lib c) then acc else acc ++ [c]

/-- `processColors`: sort the collected colors by descending frequency
(stable), then greedily deduplicate perceptually similar colors. -/
def processColors (lib : ChromaLib) (m : FreqMap) : List String :=
  ((sortDesc m).map Prod.fst).foldl (dedupStep lib) []

/-! ## Color categorization (`extractColors`, lines 136-203) -/

/-- `ColorCategorySet`: the result record of `extractColors`. -/
structure ColorCategorySet where
  primary : List String
  secondary : List String
  accent : List String
  neutral : List String
  all : List String
deriving DecidableEq, Repr

/-- The categorization half of `extractColors`, operating on the collected
frequency map.  Note that `sortedColors` is recomputed from the *raw* map
(filtered to chroma-parseable strings), not from the deduplicated
`processedColors`; only the `all` field uses the deduplicated sequence.
The `luminanceMap` built by the source between the two steps is dead code
(never read) and is not modelled. -/
def extractColorsFromMap (lib : ChromaLib) (colorMap : FreqMap) : ColorCategorySet :=
  let processedColors := processColors lib colorMap
  let sortedColors := ((sortDesc colorMap).map Prod.fst).filter lib.parses
  let primary := sortedColors.take 3
  let secondary := (sortedColors.filter (fun c => !primary.contains c)).take 3
  let accent := (sortedColors.filter (fun c =>
    if lib.parses c then
      !primary.contains c && !secondary.contains c && decide (50 < lib.chromaVal c)
    else false)).take 3
  let neutral := (sortedColors.filter (fun c =>
    if lib.parses c then
      decide (lib.chromaVal c < 30) &&
        (decide ((7 : ℚ) / 10 < lib.luminance c) || decide (lib.luminance c < (3 : ℚ) / 10))
    else false)).take 4
  { primary := primary, secondary := secondary, accent := accent,
    neutral := neutral, all := processedColors }

/-! ## Inline-style property scanning

The collectors read a CSS property out of a raw `style` attribute with a
regex of the shape `new RegExp(prop + ":\\s*([^;]+)", "i")`: find the first
(case-insensitive) occurrence of `prop:` that is followed, after optional
whitespace, by at least one character, and capture up to the next `;`.
An occurrence whose value part is empty makes the regex engine search for a
later occurrence; an occurrence followed only by whitespace before a `;` or
the end matches with a whitespace capture (which trims to the empty string
downstream). -/

/-- Scan `style` for the first successful match of `prop:`-then-value.
`prop` must be given lower-case.  Returns the raw capture of `[^;]+`. -/
def scanProp (prop : List Char) : List Char → Option (List Char)
  | [] => none
  | c :: rest =>
    let s := c :: rest
    if (prop ++ [':']).isPrefixOf (lowerChars s) then
      let after := s.drop (prop.length + 1)
      let body := after.dropWhile isWS
      match body with
      | [] =>
        let ws := after.takeWhile isWS
        if ws.isEmpty then scanProp prop rest else some ws
      | b :: _ =>
        if b == ';' then
          let ws := after.takeWhile isWS
          if ws.isEmpty then scanProp prop rest else some ws
        else some (body.takeWhile (fun ch => ch != ';'))
    else scanProp prop rest

/-- Scan a stylesheet URL for `family=([^&:]+)` (case-sensitive, as in the
source); an occurrence with an empty value makes the scan continue. -/
def extractFamilyParam : List Char → Option (List Char)
  | [] => none
  | c :: rest =>
    if "family=".data.isPrefixOf (c :: rest) then
      let cap := ((c :: rest).drop 7).takeWhile (fun ch => !(ch == '&' || ch == ':'))
      if cap.isEmpty then extractFamilyParam rest else some cap
    else extractFamilyParam rest

/-- `dropWhile` never lengthens a list (termination helper). -/
theorem dropWhile_length_le (p : Char → Bool) :
    ∀ l : List Char, (l.dropWhile p).length ≤ l.length := by
  intro l
  induction l with
  | nil => simp
  | cons c rest ih =>
    by_cases h : p c = true
    · simp [List.dropWhile, h]; omega
    · simp [List.dropWhile, h]

/-- First match of `(\d+\.\d+(\.\d+)?)` in a URL: a digit run followed by a
dot and a second digit run, optionally a third.  A digit run not followed by
`.digit` cannot start a match at any of its positions, so the scan skips past
it whole. -/
def findVersionNum : List Char → Option String
  | [] => none
  | c :: rest =>
    if c.isDigit then
      let s := c :: rest
      let d1 := s.takeWhile Char.isDigit
      let afterD1 := s.dropWhile Char.isDigit
      match afterD1 with
      | '.' :: t =>
        let d2 := t.takeWhile Char.isDigit
        if d2.isEmpty then findVersionNum afterD1
        else
          let afterD2 := t.dropWhile Char.isDigit
          match afterD2 with
          | '.' :: u =>
            let d3 := u.takeWhile Char.isDigit
            if d3.isEmpty then some (String.mk (d1 ++ '.' :: d2))
            else some (String.mk (d1 ++ '.' :: d2 ++ '.' :: d3))
          | _ => some (String.mk (d1 ++ '.' :: d2))
      | _ => findVersionNum (s.dropWhile Char.isDigit)
    else findVersionNum rest
termination_by l => l.length
decreasing_by
  all_goals simp_all
  · have h := dropWhile_length_le Char.isDigit rest
    simp_all; omega
  · have h := dropWhile_length_le Char.isDigit rest
    simp_all; omega

/-- `parseInt` on the decimal-digit prefix of a string (`none` when the string
does not start with a digit, i.e. JS `NaN`). -/
def jsParseIntLead (s : String) : Option Nat :=
  let ds := s.data.takeWhile Char.isDigit
  if ds.isEmpty then none
  else some (ds.foldl (fun n c => n * 10 + (c.toNat - 48)) 0)

/-! ## The document-tree abstraction

The engine consumes an already-rendered document tree (the network fetch and
cheerio parse are external collaborators).  An `Element` carries the
attributes the collectors read plus `matchesSel`, the abstraction of
CSS-selector matching against that element; a `Doc` is the elements in
traversal order plus the stylesheet links, comment texts, and the viewport
meta content. -/

structure Element where
  tagName : String
  classAttr : Option String
  idAttr : Option String
  styleAttr : Option String
  fill : Option String
  stroke : Option String
  childCount : Nat
  text : String
  computedFontFamily : Option String
  computedFontSize : Option String
  matchesSel : String → Bool

structure Doc where
  elements : List Element
  styleLinks : List String
  comments : List String
  viewportMeta : Option (Option String)

/-! ## Color collection (`extractColors`, lines 53-135) -/

/-- The CSS properties scanned for color values, in source order. -/
def colorProperties : List String :=
  ["color", "background-color", "border-color",
   "background", "border", "box-shadow", "fill", "stroke"]

/-- Class-name prefixes that signal a symbolic color reference. -/
def colorClassPrefixes : List String :=
  ["bg-", "text-", "border-", "btn-", "alert-", "badge-",
   "table-", "navbar-", "list-group-item-"]

/-- Semantic color names recognised after a color-class prefix. -/
def colorNames : List String :=
  ["primary", "secondary", "success", "danger", "warning",
   "info", "light", "dark", "white", "black", "transparent",
   "blue", "indigo", "purple", "pink", "red", "orange",
   "yellow", "green", "teal", "cyan", "gray", "grey"]

/-- Inline-style pass of the color collector: each of the eight color
properties is matched against the style text and a valid trimmed value bumps
its count.  (A property name occurring inside a longer one, e.g. `color:`
inside `background-color:`, matches too, exactly as the source regex does.) -/
def collectInlineColors (lib : ChromaLib) (m : FreqMap) (style : String) : FreqMap :=
  colorProperties.foldl (fun m prop =>
    match scanProp prop.data style.data with
    | some cap =>
      let color := String.mk (trimChars cap)
      if isValidColor lib color then bump m color 1 else m
    | none => m) m

/-- SVG pass: `fill` then `stroke` presentation attributes of elements
matching `svg [fill], svg [stroke]`, excluding `none`/`transparent`. -/
def collectSvgColors (lib : ChromaLib) (m : FreqMap) (el : Element) : FreqMap :=
  let m := match el.fill with
    | some f =>
      if f != "none" && f != "transparent" && isValidColor lib f then bump m f 1 else m
    | none => m
  match el.stroke with
  | some st =>
    if st != "none" && st != "transparent" && isValidColor lib st then bump m st 1 else m
  | none => m

/-- Class pass: a class token starting with a color prefix and continuing
with a known semantic color name records the symbolic `var(--name)` token. -/
def collectClassColors (m : FreqMap) (classAttr : String) : FreqMap :=
  (splitWS classAttr).foldl (fun m className =>
    colorClassPrefixes.foldl (fun m prefixStr =>
      if prefixStr.data.isPrefixOf className.data then
        let colorName := String.mk (className.data.drop prefixStr.length)
        if colorNames.contains colorName then
          bump m ("var(--" ++ colorName ++ ")") 1
        else m
      else m) m) m

/-- The full color-collection pipeline of `extractColors`: inline styles of
all `[style]` elements, then SVG paint attributes, then color classes. -/
def buildColorMap (lib : ChromaLib) (doc : Doc) : FreqMap :=
  let m1 := doc.elements.foldl (fun m el =>
    match el.styleAttr with
    | some st => collectInlineColors lib m st
    | none => m) []
  let m2 := doc.elements.foldl (fun m el =>
    if el.matchesSel "svg [fill], svg [stroke]" then collectSvgColors lib m el else m) m1
  doc.elements.foldl (fun m el =>
    match el.classAttr with
    | some cls => collectClassColors m cls
    | none => m) m2

/-- `extractColors`: collect, then cluster and categorize. -/
def extractColors (lib : ChromaLib) (doc : Doc) : ColorCategorySet :=
  extractColorsFromMap lib (buildColorMap lib doc)

/-! ## Typography normalizer (`extractTypography`, lines 264-477) -/

/-- The apostrophe character (code point 39), stripped from font names. -/
def quoteChar : Char := Char.ofNat 39

/-- The ordered font-family rule table: `(pattern, normalized)` where the
pattern is a case-insensitive substring (all source regexes are literal).
Rule order is significant: the first matching rule wins. -/
def fontFamilyPatterns : List (String × String) :=
  [("arial", "Arial, sans-serif"),
   ("helvetica", "Helvetica, Arial, sans-serif"),
   ("times new roman", "Times New Roman, serif"),
   ("times", "Times, serif"),
   ("courier", "Courier, monospace"),
   ("verdana", "Verdana, sans-serif"),
   ("georgia", "Georgia, serif"),
   ("palatino", "Palatino, serif"),
   ("garamond", "Garamond, serif"),
   ("bookman", "Bookman, serif"),
   ("avant garde", "Avant Garde, sans-serif"),
   ("trebuchet", "Trebuchet MS, sans-serif"),
   ("impact", "Impact, sans-serif"),
   ("comic sans", "Comic Sans MS, cursive"),
   ("roboto", "Roboto, sans-serif"),
   ("open sans", "Open Sans, sans-serif"),
   ("lato", "Lato, sans-serif"),
   ("montserrat", "Montserrat, sans-serif"),
   ("raleway", "Raleway, sans-serif"),
   ("poppins", "Poppins, sans-serif"),
   ("nunito", "Nunito, sans-serif"),
   ("playfair", "Playfair Display, serif"),
   ("merriweather", "Merriweather, serif"),
   ("ubuntu", "Ubuntu, sans-serif"),
   ("source sans", "Source Sans Pro, sans-serif"),
   ("source serif", "Source Serif Pro, serif"),
   ("source code", "Source Code Pro, monospace"),
   ("fira", "Fira Sans, sans-serif"),
   ("noto", "Noto Sans, sans-serif"),
   ("pt sans", "PT Sans, sans-serif"),
   ("pt serif", "PT Serif, serif"),
   ("muli", "Muli, sans-serif"),
   ("titillium", "Titillium Web, sans-serif"),
   ("karla", "Karla, sans-serif"),
   ("inter", "Inter, sans-serif"),
   ("sans-serif", "sans-serif"),
   ("serif", "serif"),
   ("monospace", "monospace"),
   ("cursive", "cursive"),
   ("fantasy", "fantasy"),
   ("system-ui", "system-ui")]

/-- Case-insensitive substring test of one font-family rule. -/
def patTest (pat : String) (s : String) : Bool :=
  containsSubList pat.data (lowerChars s.data)

/-- `replace(/['"]/g, '').trim()`: remove every quote character anywhere in
the string, then trim surrounding whitespace. -/
def stripQuotesTrim (s : String) : String :=
  String.mk (trimChars (s.data.filter (fun c => !(c == quoteChar || c == '"'))))

/-- `normalizeFontFamily`: strip quotes and whitespace, then return the
normalized value of the first matching rule, or the stripped string itself
when no rule matches. -/
def normalizeFontFamily (s : String) : String :=
  let n := stripQuotesTrim s
  match fontFamilyPatterns.find? (fun p => patTest p.1 n) with
  | some p => p.2
  | none => n

/-- The seven frequency maps accumulated by `extractTypography`. -/
structure TypoMaps where
  ff : FreqMap
  fs : FreqMap
  fw : FreqMap
  lh : FreqMap
  ls : FreqMap
  tt : FreqMap
  td : FreqMap

def emptyTypoMaps : TypoMaps := ⟨[], [], [], [], [], [], []⟩

/-- Bump helper reading one property out of an inline style, with the raw
capture transformed by `f` before insertion. -/
def bumpProp (style : String) (prop : String) (f : String → String)
    (m : FreqMap) : FreqMap :=
  match scanProp prop.data style.data with
  | some cap => bump m (f (String.mk cap)) 1
  | none => m

/-- Inline-style pass of the typography collector: the seven font
properties, in source order.  `font-family` is normalized, the others are
trimmed verbatim. -/
def collectInlineTypo (ms : TypoMaps) (style : String) : TypoMaps :=
  { ms with
    ff := bumpProp style "font-family" normalizeFontFamily ms.ff,
    fs := bumpProp style "font-size" (fun v => String.mk (trimChars v.data)) ms.fs,
    fw := bumpProp style "font-weight" (fun v => String.mk (trimChars v.data)) ms.fw,
    lh := bumpProp style "line-height" (fun v => String.mk (trimChars v.data)) ms.lh,
    ls := bumpProp style "letter-spacing" (fun v => String.mk (trimChars v.data)) ms.ls,
    tt := bumpProp style "text-transform" (fun v => String.mk (trimChars v.data)) ms.tt,
    td := bumpProp style "text-decoration" (fun v => String.mk (trimChars v.data)) ms.td }

/-- Recognised `fw-*` suffixes (Bootstrap-like font-weight utilities). -/
def fwSuffixes : List String :=
  ["light", "normal", "bold", "bolder", "semibold",
   "100", "200", "300", "400", "500", "600", "700", "800", "900"]

/-- Recognised `fs-*` suffixes. -/
def fsSuffixes : List String :=
  ["1", "2", "3", "4", "5", "6", "sm", "md", "lg", "xl"]

/-- Class pass of the typography collector: `fw-*` weights, `fs-*` symbolic
sizes, and the three text-transform utility classes. -/
def collectClassTypo (ms : TypoMaps) (classAttr : String) : TypoMaps :=
  (splitWS classAttr).foldl (fun ms className =>
    let ms :=
      if "fw-".data.isPrefixOf className.data then
        let weight := String.mk (className.data.drop 3)
        if fwSuffixes.contains weight then { ms with fw := bump ms.fw weight 1 } else ms
      else ms
    let ms :=
      if "fs-".data.isPrefixOf className.data then
        let size := String.mk (className.data.drop 3)
        if fsSuffixes.contains size then
          { ms with fs := bump ms.fs ("var(--fs-" ++ size ++ ")") 1 }
        else ms
      else ms
    if className == "text-uppercase" || className == "text-lowercase" ||
        className == "text-capitalize" then
      { ms with tt := bump ms.tt (String.mk (className.data.drop 5)) 1 }
    else ms) ms

/-- Heading pass: record `heading-<level>` into the font-weight map (the
level comes from `parseInt(tagName.substring(1))`, `NaN` when the digit is
missing), then the computed font-family and font-size when available. -/
def collectHeadingTypo (ms : TypoMaps) (el : Element) : TypoMaps :=
  let tagLower := toLowerStr el.tagName
  let levelStr := match jsParseIntLead (String.mk (tagLower.data.drop 1)) with
    | some n => toString n
    | none => "NaN"
  let ms := { ms with fw := bump ms.fw ("heading-" ++ levelStr) 1 }
  let ms := match el.computedFontFamily with
    | some f => { ms with ff := bump ms.ff (normalizeFontFamily f) 1 }
    | none => ms
  match el.computedFontSize with
  | some sz => { ms with fs := bump ms.fs sz 1 }
  | none => ms

/-- Stylesheet-link pass: a Google Fonts URL contributes its `family=`
parameter (pluses turned into spaces, then normalized) with weight 10. -/
def collectLinkFonts (m : FreqMap) (href : String) : FreqMap :=
  if containsStr href "fonts.googleapis.com" then
    match extractFamilyParam href.data with
    | some fam =>
      bump m (normalizeFontFamily (String.mk (fam.map (fun c => if c == '+' then ' ' else c)))) 10
    | none => m
  else m

/-- A ranked token: `{ value, count }` as produced by `sortMapByFrequency`. -/
structure RankedValue where
  value : String
  count : Nat
deriving DecidableEq, Repr

/-- `sortMapByFrequency`: map entries sorted by descending count. -/
def sortMapByFrequency (m : FreqMap) : List RankedValue :=
  (sortDesc m).map (fun p => ⟨p.1, p.2⟩)

/-- `extractHeadingStyle`: `null` when no element matches, otherwise the
count. -/
def extractHeadingStyle (doc : Doc) (sel : String) : Option Nat :=
  let n := (doc.elements.filter (fun el => el.matchesSel sel)).length
  if n = 0 then none else some n

/-- The `TypographySet` result record of `extractTypography`. -/
structure TypographySet where
  fontFamilies : List RankedValue
  fontSizes : List RankedValue
  fontWeights : List RankedValue
  lineHeights : List RankedValue
  letterSpacings : List RankedValue
  textTransforms : List RankedValue
  textDecorations : List RankedValue
  h1 : Option Nat
  h2 : Option Nat
  h3 : Option Nat
  h4 : Option Nat
  h5 : Option Nat
  h6 : Option Nat
deriving DecidableEq, Repr

/-- `extractTypography`: inline styles, then utility classes, then heading
elements, then stylesheet links; every map is finally ranked by frequency. -/
def extractTypography (doc : Doc) : TypographySet :=
  let ms := doc.elements.foldl (fun ms el =>
    match el.styleAttr with
    | some st => collectInlineTypo ms st
    | none => ms) emptyTypoMaps
  let ms := doc.elements.foldl (fun ms el =>
    match el.classAttr with
    | some cls => collectClassTypo ms cls
    | none => ms) ms
  let ms := doc.elements.foldl (fun ms el =>
    if el.matchesSel "h1, h2, h3, h4, h5, h6" then collectHeadingTypo ms el else ms) ms
  let ff := doc.styleLinks.foldl collectLinkFonts ms.ff
  { fontFamilies := sortMapByFrequency ff,
    fontSizes := sortMapByFrequency ms.fs,
    fontWeights := sortMapByFrequency ms.fw,
    lineHeights := sortMapByFrequency ms.lh,
    letterSpacings := sortMapByFrequency ms.ls,
    textTransforms := sortMapByFrequency ms.tt,
    textDecorations := sortMapByFrequency ms.td,
    h1 := extractHeadingStyle doc "h1",
    h2 := extractHeadingStyle doc "h2",
    h3 := extractHeadingStyle doc "h3",
    h4 := extractHeadingStyle doc "h4",
    h5 := extractHeadingStyle doc "h5",
    h6 := extractHeadingStyle doc "h6" }

/-! ## Component extraction (`extractComponents`, lines 511-569) -/

/-- The fixed component selector table, in source order. -/
def componentSelectors : List (String × String) :=
  [("buttons", "button, .btn, [class*=\"button\"], [type=\"button\"], [type=\"submit\"]"),
   ("forms", "form"),
   ("inputs", "input, textarea, select"),
   ("navigation", "nav, [class*=\"nav\"], [class*=\"menu\"]"),
   ("cards", "[class*=\"card\"]"),
   ("modals", "[class*=\"modal\"], [class*=\"dialog\"]"),
   ("tables", "table"),
   ("lists", "ul, ol"),
   ("images", "img"),
   ("icons", "i, [class*=\"icon\"]"),
   ("headers", "header, [class*=\"header\"]"),
   ("footers", "footer, [class*=\"footer\"]"),
   ("sidebars", "aside, [class*=\"sidebar\"], [class*=\"side-bar\"]")]

/-- A component example record.  The `text` field truncates the trimmed text
to 50 characters but tests the untrimmed length for the ellipsis, as the
source does. -/
structure ComponentExample where
  tag : String
  classes : List String
  id : String
  text : String
deriving DecidableEq, Repr

def mkComponentExample (el : Element) : ComponentExample :=
  { tag := toLowerStr el.tagName,
    classes := (splitWS (el.classAttr.getD "")).filter (fun s => s ≠ ""),
    id := el.idAttr.getD "",
    text := (String.mk (trimChars el.text.data)).take 50 ++
      (if 50 < el.text.length then "..." else "") }

structure ComponentInfo where
  count : Nat
  examples : List ComponentExample
deriving DecidableEq, Repr

/-- `extractComponents`: count matches and keep up to three examples per
component type. -/
def extractComponents (doc : Doc) : List (String × ComponentInfo) :=
  componentSelectors.map (fun p =>
    let els := doc.elements.filter (fun el => el.matchesSel p.2)
    (p.1, { count := els.length,
            examples := if els.length > 0 then (els.take 3).map mkComponentExample else [] }))

/-! ## Layout & framework detection (`analyzeLayout`, lines 576-838) -/

/-- The fixed layout-pattern selector groups, in source order. -/
def layoutPatternGroups : List (String × List String) :=
  [("containers",
    ["[class*=\"container\"]", "[class*=\"wrapper\"]", "[class*=\"content\"]",
     "main", "section", "article"]),
   ("grids",
    ["[class*=\"grid\"]", "[class*=\"row\"]", "[class*=\"cols\"]",
     "[class*=\"columns\"]", "[style*=\"display: grid\"]", "[style*=\"display:grid\"]"]),
   ("flexContainers",
    ["[class*=\"flex\"]", "[class*=\"d-flex\"]",
     "[style*=\"display: flex\"]", "[style*=\"display:flex\"]"]),
   ("responsiveLayouts",
    ["[class*=\"col-\"]", "[class*=\"sm-\"]", "[class*=\"md-\"]", "[class*=\"lg-\"]",
     "[class*=\"xl-\"]", "[class*=\"mobile-\"]", "[class*=\"tablet-\"]",
     "[class*=\"desktop-\"]"]),
   ("positioning",
    ["[style*=\"position: absolute\"]", "[style*=\"position:absolute\"]",
     "[style*=\"position: relative\"]", "[style*=\"position:relative\"]",
     "[style*=\"position: fixed\"]", "[style*=\"position:fixed\"]",
     "[style*=\"position: sticky\"]", "[style*=\"position:sticky\"]"]),
   ("zIndex", ["[style*=\"z-index:\"]"])]

/-- The fixed CSS-framework selector checklist, in source order. -/
def cssFrameworkChecklist : List (String × List String) :=
  [("bootstrap",
    [".container", ".row", ".col", ".navbar", ".card", ".btn", ".alert", ".badge"]),
   ("tailwind",
    ["[class*=\"flex\"]", "[class*=\"grid\"]", "[class*=\"text-\"]", "[class*=\"bg-\"]",
     "[class*=\"p-\"]", "[class*=\"m-\"]", "[class*=\"w-\"]", "[class*=\"h-\"]"]),
   ("foundation",
    [".grid-container", ".grid-x", ".cell", ".button", ".callout", ".top-bar"]),
   ("bulma",
    [".container", ".columns", ".column", ".navbar", ".button", ".notification", ".box"]),
   ("materialize",
    [".container", ".row", ".col", ".card", ".btn", ".navbar", ".sidenav"])]

/-- A layout example record (`id` is `attr('id') || null`, so an empty id
attribute also becomes null). -/
structure LayoutExample where
  tag : String
  classes : List String
  id : Option String
  children : Nat
deriving DecidableEq, Repr

def mkLayoutExample (el : Element) : LayoutExample :=
  { tag := toLowerStr el.tagName,
    classes := (splitWS (el.classAttr.getD "")).filter (fun s => s ≠ ""),
    id := match el.idAttr with
      | some s => if s = "" then none else some s
      | none => none,
    children := el.childCount }

structure PatternInfo where
  count : Nat
  examples : List LayoutExample
deriving DecidableEq, Repr

/-- One layout-pattern group: the selector matches are unioned by element
identity, so an element matching several selectors of the group counts
once. -/
def analyzePatternGroup (doc : Doc) (sels : List String) : PatternInfo :=
  let uniq := doc.elements.filter (fun el => sels.any (fun s => el.matchesSel s))
  { count := uniq.length, examples := (uniq.take 3).map mkLayoutExample }

/-- Number of checklist selectors with at least one match. -/
def countMatchedSelectors (q : String → Bool) (sels : List String) : Nat :=
  (sels.filter q).length

/-- `confidencePercent = Math.round(matchedSelectorCount / totalSelectors * 100)`. -/
def frameworkConfidence (q : String → Bool) (sels : List String) : ℤ :=
  jsRound ((countMatchedSelectors q sels : ℚ) * 100 / (sels.length : ℚ))

/-- `detected = confidence > 30`. -/
def frameworkDetected (q : String → Bool) (sels : List String) : Bool :=
  decide (30 < frameworkConfidence q sels)

structure FrameworkInfo where
  detected : Bool
  version : Option String
  confidence : ℤ
deriving DecidableEq, Repr

/-- Does some element of the document match the selector
(`$(selector).length > 0`)? -/
def docQuery (doc : Doc) (sel : String) : Bool :=
  doc.elements.any (fun el => el.matchesSel sel)

/-- Version detection from stylesheet URLs: a link whose lower-cased href
contains the framework name and a `<major>.<minor>[.<patch>]` number
overwrites any previously found version (last write wins).  The source's
comment-based detection filters `$('*')` (element nodes) on
`nodeType === 8` (comment nodes), which never holds, so it contributes
nothing. -/
def frameworkVersion (doc : Doc) (name : String) : Option String :=
  doc.styleLinks.foldl (fun v href =>
    if containsStr (toLowerStr href) name then
      match findVersionNum href.data with
      | some ver => some ver
      | none => v
    else v) none

def detectFramework (doc : Doc) (name : String) (sels : List String) : FrameworkInfo :=
  { detected := frameworkDetected (docQuery doc) sels,
    version := frameworkVersion doc name,
    confidence := frameworkConfidence (docQuery doc) sels }

structure Responsive where
  detected : Bool
  breakpoints : List String
  viewportMeta : Option String
deriving DecidableEq, Repr

structure PageStructure where
  hasHeader : Bool
  hasFooter : Bool
  hasNavigation : Bool
  hasSidebar : Bool
  hasMain : Bool
  sections : Nat
deriving DecidableEq, Repr

structure LayoutInfo where
  patterns : List (String × PatternInfo)
  frameworks : List (String × FrameworkInfo)
  responsive : Responsive
  pageStructure : PageStructure
deriving DecidableEq, Repr

/-- `analyzeLayout`. -/
def analyzeLayout (doc : Doc) : LayoutInfo :=
  { patterns := layoutPatternGroups.map (fun p => (p.1, analyzePatternGroup doc p.2)),
    frameworks := cssFrameworkChecklist.map (fun p => (p.1, detectFramework doc p.1 p.2)),
    responsive :=
      { detected := doc.viewportMeta.isSome,
        breakpoints := [],
        viewportMeta := match doc.viewportMeta with
          | some c => c
          | none => none },
    pageStructure :=
      { hasHeader := docQuery doc "header" || docQuery doc "[class*=\"header\"]",
        hasFooter := docQuery doc "footer" || docQuery doc "[class*=\"footer\"]",
        hasNavigation := docQuery doc "nav" || docQuery doc "[class*=\"nav\"]" ||
          docQuery doc "[class*=\"menu\"]",
        hasSidebar := docQuery doc "aside" || docQuery doc "[class*=\"sidebar\"]" ||
          docQuery doc "[class*=\"side-bar\"]",
        hasMain := docQuery doc "main",
        sections := (doc.elements.filter (fun el => el.matchesSel "section")).length } }

/-! ## `analyzeWebsite` -/

/-- The complete extraction result for one document. -/
structure SiteAnalysis where
  url : String
  colors : ColorCategorySet
  typography : TypographySet
  components : List (String × ComponentInfo)
  layout : LayoutInfo
  timestamp : String
deriving DecidableEq, Repr

/-- `analyzeWebsite`: fetching and parsing the page are external (the `Doc`
is the already-rendered tree); the analysis record stamps the wall-clock
time of the call (`new Date().toISOString()`) into its `timestamp` field. -/
def analyzeWebsite (lib : ChromaLib) (url : String) (doc : Doc)
    (timestamp : String) : SiteAnalysis :=
  { url := url,
    colors := extractColors lib doc,
    typography := extractTypography doc,
    components := extractComponents doc,
    layout := analyzeLayout doc,
    timestamp := timestamp }

/-! ## Aggregation helpers (`selectMostCommon`, `selectMostCommonFromObjects`) -/

/-- `selectMostCommon`: recount frequencies over the flattened pool, sort by
descending count (stable), take the first `count` items. -/
def selectMostCommon (items : List String) (count : Nat) : List String :=
  ((sortDesc (items.foldl (fun m i => bump m i 1) [])).take count).map Prod.fst

/-- `map.set(k, v)`: overwrite an existing key in place or append. -/
def setKey (m : FreqMap) (k : String) (v : Nat) : FreqMap :=
  if m.any (fun p => p.1 == k) then
    m.map (fun p => if p.1 == k then (p.1, v) else p)
  else
    m ++ [(k, v)]

/-- `selectMostCommonFromObjects`: recount `{value, count}` objects.  The
source computes `(freq.get(value) || 0) + item.count || 1`, which by JS
precedence is `((old + item.count) || 1)`: the sum, replaced by 1 when it is
zero (or NaN from a missing count — our objects always carry a count). -/
def selectMostCommonFromObjects (items : List RankedValue) (count : Nat) :
    List RankedValue :=
  let m := items.foldl (fun m it =>
    let s := lookupCount m it.value + it.count
    setKey m it.value (if s = 0 then 1 else s)) []
  ((sortDesc m).take count).map (fun p => ⟨p.1, p.2⟩)

/-! ## Derived scales -/

/-- The fixed default font-size scale. -/
structure FontSizeScale where
  xs : String
  sm : String
  base : String
  lg : String
  xl : String
  x2l : String
  x3l : String
  x4l : String
  x5l : String
  x6l : String
deriving DecidableEq, Repr

def defaultFontSizeScale : FontSizeScale :=
  { xs := "0.75rem", sm := "0.875rem", base := "1rem", lg := "1.125rem",
    xl := "1.25rem", x2l := "1.5rem", x3l := "1.875rem", x4l := "2.25rem",
    x5l := "3rem", x6l := "3.75rem" }

/-- `generateFontSizeScale`: below the minimum sample size of 5 the default
scale is returned; the other branch ("try to extract a scale … this is a
simplified approach") also returns the default scale, exactly as the source
does. -/
def generateFontSizeScale (fontSizes : List RankedValue) : FontSizeScale :=
  if fontSizes.length < 5 then defaultFontSizeScale else defaultFontSizeScale

structure LineHeightScale where
  lhNone : String
  tight : String
  snug : String
  normal : String
  relaxed : String
  loose : String
deriving DecidableEq, Repr

def defaultLineHeightScale : LineHeightScale :=
  { lhNone := "1", tight := "1.25", snug := "1.375", normal := "1.5",
    relaxed := "1.625", loose := "2" }

/-- `generateLineHeightScale`: default below the minimum sample size of 3;
the other branch also returns the default, exactly as the source does. -/
def generateLineHeightScale (lineHeights : List RankedValue) : LineHeightScale :=
  if lineHeights.length < 3 then defaultLineHeightScale else defaultLineHeightScale

/-- `generateSpacingScale` (a fixed table). -/
def generateSpacingScale : List (String × String) :=
  [("0", "0"), ("1", "0.25rem"), ("2", "0.5rem"), ("3", "0.75rem"),
   ("4", "1rem"), ("5", "1.25rem"), ("6", "1.5rem"), ("8", "2rem"),
   ("10", "2.5rem"), ("12", "3rem"), ("16", "4rem"), ("20", "5rem"),
   ("24", "6rem"), ("32", "8rem"), ("40", "10rem"), ("48", "12rem"),
   ("56", "14rem"), ("64", "16rem")]

/-! ## Component specifications -/

/-- The fixed component-type list consumed by `generateComponentSpecs`. -/
def componentTypes : List String :=
  ["buttons", "forms", "inputs", "navigation", "cards", "modals", "tables", "lists"]

def lookupComp (comps : List (String × ComponentInfo)) (t : String) :
    Option ComponentInfo :=
  (comps.find? (fun p => p.1 == t)).map Prod.snd

/-- The generated structural specification record (`generateAngularComponentSpec`):
deterministic from the component type name alone. -/
structure ComponentSpec where
  count : Nat
  examples : List ComponentExample
  selector : String
  componentName : String
deriving DecidableEq, Repr

/-- `generateComponentSpecs`: sum counts, concatenate examples truncated to
three, and generate the fixed structural record per type. -/
def generateComponentSpecs (analyses : List SiteAnalysis) :
    List (String × ComponentSpec) :=
  componentTypes.map (fun t =>
    let allExamples := analyses.flatMap (fun a =>
      ((lookupComp a.components t).map ComponentInfo.examples).getD [])
    (t, { count := analyses.foldl (fun s a =>
            s + ((lookupComp a.components t).map ComponentInfo.count).getD 0) 0,
          examples := allExamples.take 3,
          selector := "app-" ++ t.dropRight 1,
          componentName := (t.take 1).toUpper ++ (t.drop 1).dropRight 1 ++ "Component" }))

/-! ## Framework recommendation -/

/-- Per-analysis best framework: the entry with the strictly highest
confidence wins (first encountered wins ties, and the result is null when no
confidence exceeds the initial 0). -/
def bestFramework (fws : List (String × FrameworkInfo)) : Option String :=
  (fws.foldl (fun acc p =>
    if acc.1 < p.2.confidence then (p.2.confidence, some p.1) else acc)
    ((0 : ℤ), (none : Option String))).2

/-- Majority vote across analyses: tally a vote per best-framework name and
take the first name reaching the maximum count (strict-greater scan from 0). -/
def recommendFramework (analyses : List SiteAnalysis) : Option String :=
  let layoutFrameworks := analyses.filterMap (fun a => bestFramework a.layout.frameworks)
  let frameworkCounts := layoutFrameworks.foldl (fun m n => bump m n 1) []
  (frameworkCounts.foldl (fun acc p =>
    if acc.1 < p.2 then (p.2, some p.1) else acc)
    ((0 : Nat), (none : Option String))).2

/-! ## The style guide (`generateStyleGuide`, lines 845-1075) -/

structure ColorPalette where
  primary : List String
  secondary : List String
  accent : List String
  neutral : List String
deriving DecidableEq, Repr

/-- Color section of the style guide.  A shade field is `none` when the
corresponding pool is empty (the source then never creates the key); an
empty ramp list models the catch branch of the chroma shade computation. -/
structure SGColors where
  palette : ColorPalette
  shadesPrimary : Option (List (Nat × String))
  shadesSecondary : Option (List (Nat × String))
  semantic : List (String × String)
deriving DecidableEq, Repr

structure SGTypography where
  fontFamilies : List RankedValue
  fontSizes : FontSizeScale
  fontWeights : List RankedValue
  lineHeights : LineHeightScale
  letterSpacings : List RankedValue
  textTransforms : List RankedValue
deriving DecidableEq, Repr

structure SGLayout where
  gridColumns : Nat
  gridGutter : String
  containers : List (String × String)
  recommendedFramework : Option String
deriving DecidableEq, Repr

/-- The synthesized style guide.  The fixed literal sub-records of the
source (headings/paragraph defaults, shadows, borders, animations) and the
rendered artifacts (`cssVariables`, `htmlPreview`, `documentation`) are
constant template renderings of the fields below and are not re-modelled. -/
structure StyleGuide where
  colors : SGColors
  typography : SGTypography
  components : List (String × ComponentSpec)
  layout : SGLayout
  spacing : List (String × String)
  breakpoints : List (String × String)
deriving DecidableEq, Repr

/-- `generateStyleGuide`.  Note that the source contains no precondition
check on `analyses`: an empty batch flows through every aggregation step
(all `flatMap` pools empty) and still produces a style guide. -/
def generateStyleGuide (lib : ChromaLib) (analyses : List SiteAnalysis) : StyleGuide :=
  let allColors := analyses.flatMap (fun a => a.colors.all)
  let allPrimaryColors := analyses.flatMap (fun a => a.colors.primary)
  let allSecondaryColors := analyses.flatMap (fun a => a.colors.secondary)
  let allAccentColors := analyses.flatMap (fun a => a.colors.accent)
  let allNeutralColors := analyses.flatMap (fun a => a.colors.neutral)
  let allFontFamilies := analyses.flatMap (fun a => a.typography.fontFamilies)
  let allFontSizes := analyses.flatMap (fun a => a.typography.fontSizes)
  let allFontWeights := analyses.flatMap (fun a => a.typography.fontWeights)
  let allLineHeights := analyses.flatMap (fun a => a.typography.lineHeights)
  let allLetterSpacings := analyses.flatMap (fun a => a.typography.letterSpacings)
  let allTextTransforms := analyses.flatMap (fun a => a.typography.textTransforms)
  let colorPalette : ColorPalette :=
    { primary := selectMostCommon
        (if allPrimaryColors.isEmpty then allColors else allPrimaryColors) 3,
      secondary := selectMostCommon
        (if allSecondaryColors.isEmpty then allColors.drop 3 else allSecondaryColors) 3,
      accent := selectMostCommon
        (if allAccentColors.isEmpty then allColors.drop 6 else allAccentColors) 2,
      neutral := selectMostCommon
        (if allNeutralColors.isEmpty then
          allColors.filter (fun c =>
            if lib.parses c then
              decide ((4 : ℚ) / 5 < lib.luminance c) ||
                decide (lib.luminance c < (1 : ℚ) / 5)
            else false)
        else allNeutralColors) 4 }
  { colors :=
      { palette := colorPalette,
        shadesPrimary := match colorPalette.primary with
          | [] => none
          | c :: _ => some ((lib.shadeRamp c).getD []),
        shadesSecondary := match colorPalette.secondary with
          | [] => none
          | c :: _ => some ((lib.shadeRamp c).getD []),
        semantic := [("success", "#28a745"), ("info", "#17a2b8"),
                     ("warning", "#ffc107"), ("danger", "#dc3545")] },
    typography :=
      { fontFamilies := selectMostCommonFromObjects allFontFamilies 3,
        fontSizes := generateFontSizeScale (selectMostCommonFromObjects allFontSizes 5),
        fontWeights := selectMostCommonFromObjects allFontWeights 3,
        lineHeights := generateLineHeightScale (selectMostCommonFromObjects allLineHeights 5),
        letterSpacings := selectMostCommonFromObjects allLetterSpacings 3,
        textTransforms := selectMostCommonFromObjects allTextTransforms 3 },
    components := generateComponentSpecs analyses,
    layout :=
      { gridColumns := 12,
        gridGutter := "1rem",
        containers := [("sm", "540px"), ("md", "720px"), ("lg", "960px"),
                       ("xl", "1140px"), ("xxl", "1320px")],
        recommendedFramework := recommendFramework analyses },
    spacing := generateSpacingScale,
    breakpoints := [("xs", "0px"), ("sm", "576px"), ("md", "768px"),
                    ("lg", "992px"), ("xl", "1200px"), ("xxl", "1400px")] }

/-! ## A concrete chroma library instance

Used to evaluate the engine on concrete inputs.  Colors are a finite table
of named points on a line; `deltaE` is the absolute difference of the
positions (symmetric, as a perceptual metric is), and parse failure is
absence from the table. -/

/-- Position table of the concrete test colors. -/
def tIdx : String → Option ℚ
  | "red" => some 0
  | "red2" => some 5
  | "blue" => some 50
  | "c1" => some 0
  | "c2" => some 100
  | "c3" => some 200
  | "c4" => some 300
  | "c5" => some 400
  | "c6" => some 500
  | "c7" => some 600
  | "mid" => some 1000
  | _ => none

/-- Distance between two table colors (0 when either is unparseable; that
value is never consulted because every call site guards on `parses`). -/
def tDelta (a b : String) : ℚ :=
  match tIdx a, tIdx b with
  | some x, some y => |x - y|
  | _, _ => 0

def tLum (s : String) : ℚ := if s = "mid" then 1 / 2 else 0

def tChroma (s : String) : ℚ := if s = "c7" then 60 else 0

def testLib : ChromaLib :=
  { parses := fun s => (tIdx s).isSome,
    deltaE := tDelta,
    chromaVal := tChroma,
    luminance := tLum,
    shadeRamp := fun _ => none }

theorem tDelta_symm (a b : String) : tDelta a b = tDelta b a := by
  unfold tDelta
  rcases tIdx a with _ | x <;> rcases tIdx b with _ | y <;> simp [abs_sub_comm]

example : processColors testLib [("red", 5), ("red2", 4)] = ["red"] := by
  with_unfolding_all decide
example : (extractColorsFromMap testLib [("red", 5), ("red2", 4)]).primary =
    ["red", "red2"] := by
  with_unfolding_all decide

/-! ## Claims -/

/-- C1: contrary to the claim, `generateStyleGuide` applied to the empty
batch does not fail with a precondition error: the source has no length
check, every flattened pool is empty, and a complete `StyleGuide` value is
returned (empty color palette, no recommended framework). -/
theorem generateStyleGuide_empty_batch_returns_guide (lib : ChromaLib) :
    (generateStyleGuide lib []).colors.palette = ⟨[], [], [], []⟩ ∧
    (generateStyleGuide lib []).layout.recommendedFramework = none :=
  ⟨rfl, rfl⟩

/-- C2 counterexample: with two near-duplicate colors (distance 5 < 15),
the dedup pass keeps only the more frequent one in `all`, yet `primary` is
taken from the *un*deduplicated frequency-sorted sequence, so `primary` is
not a prefix of the deduplicated sequence and contains a color that is
absent from `all`. -/
theorem extractColors_dedup_claim_cex :
    (extractColorsFromMap testLib [("red", 5), ("red2", 4)]).primary ≠
      ((extractColorsFromMap testLib [("red", 5), ("red2", 4)]).all).take 3 ∧
    "red2" ∈ (extractColorsFromMap testLib [("red", 5), ("red2", 4)]).primary ∧
    "red2" ∉ (extractColorsFromMap testLib [("red", 5), ("red2", 4)]).all := by
  with_unfolding_all decide

/-- C2 amended: the categorization operates on the frequency-sorted sequence
of chroma-parseable colors *before* deduplication (`primary` = its first 3
entries, `secondary` = the next 3 entries not in `primary`), while `all` is
the deduplicated sequence; hence a categorized color need not appear in
`all`. -/
theorem extractColors_categorizes_undeduplicated (lib : ChromaLib) (m : FreqMap) :
    (extractColorsFromMap lib m).primary =
      (((sortDesc m).map Prod.fst).filter lib.parses).take 3 ∧
    (extractColorsFromMap lib m).secondary =
      ((((sortDesc m).map Prod.fst).filter lib.parses).filter (fun c =>
        !((((sortDesc m).map Prod.fst).filter lib.parses).take 3).contains c)).take 3 ∧
    (extractColorsFromMap lib m).all = processColors lib m :=
  ⟨rfl, rfl, rfl⟩

/-- C5 counterexample: a pool of 5 observed font sizes (and 3 observed
line-heights) reaches the minimum sample size, yet the generated scale is
still exactly the fixed default — no inference from the observed data
happens above the threshold. -/
theorem fontSizeScale_above_threshold_default_cex :
    5 ≤ ([⟨"12px", 1⟩, ⟨"14px", 1⟩, ⟨"16px", 1⟩, ⟨"18px", 1⟩, ⟨"20px", 1⟩] :
        List RankedValue).length ∧
    generateFontSizeScale
        [⟨"12px", 1⟩, ⟨"14px", 1⟩, ⟨"16px", 1⟩, ⟨"18px", 1⟩, ⟨"20px", 1⟩] =
      defaultFontSizeScale ∧
    3 ≤ ([⟨"1.5", 1⟩, ⟨"1.2", 1⟩, ⟨"2", 1⟩] : List RankedValue).length ∧
    generateLineHeightScale [⟨"1.5", 1⟩, ⟨"1.2", 1⟩, ⟨"2", 1⟩] =
      defaultLineHeightScale := by
  decide

/-- C5 amended: the font-size and line-height scales equal the fixed default
scales for *every* input pool — the minimum-sample-size test (5 and 3) exists
in the source, but its above-threshold branch also returns the default. -/
theorem font_scales_always_default (sizes lineHeights : List RankedValue) :
    generateFontSizeScale sizes = defaultFontSizeScale ∧
    generateLineHeightScale lineHeights = defaultLineHeightScale := by
  constructor
  · unfold generateFontSizeScale
    split <;> rfl
  · unfold generateLineHeightScale
    split <;> rfl

/-! ### C10: category disjointness -/

/-- A member of a truncated filter excluding an exclusion list is not in
that exclusion list. -/
theorem filterTake_not_contains {l ex : List String} {n : Nat} {a : String}
    (h : a ∈ (l.filter (fun c => !ex.contains c)).take n) : a ∉ ex := by
  have h2 := (List.mem_filter.mp (List.mem_of_mem_take h)).2
  simpa using h2

/-- A member of the accent-shaped truncated filter is in neither exclusion
list. -/
theorem filterTake_accent_not_contains {lib : ChromaLib} {l p s : List String}
    {n : Nat} {a : String}
    (h : a ∈ (l.filter (fun c =>
        if lib.parses c then
          !p.contains c && !s.contains c && decide (50 < lib.chromaVal c)
        else false)).take n) : a ∉ p ∧ a ∉ s := by
  have h2 := (List.mem_filter.mp (List.mem_of_mem_take h)).2
  by_cases hp : lib.parses a = true
  · simp [hp] at h2
    exact ⟨h2.1.1, h2.1.2⟩
  · simp [hp] at h2

/-- C10: for every collected color map, the `primary`, `secondary` and
`accent` sequences of the resulting `ColorCategorySet` are pairwise
disjoint, because each later category filters out members of the earlier
ones. -/
theorem color_categories_pairwise_disjoint (lib : ChromaLib) (m : FreqMap) :
    (∀ c ∈ (extractColorsFromMap lib m).secondary,
        c ∉ (extractColorsFromMap lib m).primary) ∧
    (∀ c ∈ (extractColorsFromMap lib m).accent,
        c ∉ (extractColorsFromMap lib m).primary ∧
        c ∉ (extractColorsFromMap lib m).secondary) :=
  ⟨fun _ hc => filterTake_not_contains hc,
   fun _ hc => filterTake_accent_not_contains hc⟩

/-- Concrete seven-color map used to instantiate the disjointness theorem. -/
def m10 : FreqMap :=
  [("c1", 7), ("c2", 6), ("c3", 5), ("c4", 4), ("c5", 3), ("c6", 2), ("c7", 1)]

/-- Witness for C10 at a concrete input: `c4` sits in `secondary` and `c7`
in `accent` of `extractColorsFromMap testLib m10`. -/
theorem color_categories_pairwise_disjoint_witness :
    ("c4" ∉ (extractColorsFromMap testLib m10).primary) ∧
    ("c7" ∉ (extractColorsFromMap testLib m10).primary ∧
     "c7" ∉ (extractColorsFromMap testLib m10).secondary) :=
  ⟨(color_categories_pairwise_disjoint testLib m10).1 "c4"
      (by with_unfolding_all decide),
   (color_categories_pairwise_disjoint testLib m10).2 "c7"
      (by with_unfolding_all decide)⟩

/-! ### C3: the dedup invariant of `processColors` -/

/-- Unfolded characterization of one similarity test. -/
theorem simPred_eq_true_iff (lib : ChromaLib) (c e : String) :
    simPred lib c e = true ↔
      lib.parses c = true ∧ lib.parses e = true ∧ lib.deltaE c e < 15 := by
  unfold simPred
  cases hc : lib.parses c <;> cases he : lib.parses e <;> simp [hc, he]

/-- A failed similarity test between two parseable colors bounds their
distance from below. -/
theorem simPred_false_ge (lib : ChromaLib) {c e : String}
    (h : simPred lib c e = false) (hc : lib.parses c = true)
    (he : lib.parses e = true) : 15 ≤ lib.deltaE c e := by
  unfold simPred at h
  rw [hc, he] at h
  simp only [Bool.and_self, if_true, decide_eq_false_iff_not, not_lt] at h
  exact h

/-- The accepted list only grows during one dedup step. -/
theorem dedupStep_subset (lib : ChromaLib) (acc : List String) (c : String) :
    acc ⊆ dedupStep lib acc c := by
  unfold dedupStep
  split
  · exact fun _ h => h
  · exact List.subset_append_left acc [c]

/-- The accepted list only grows along the whole greedy pass. -/
theorem foldl_dedup_subset (lib : ChromaLib) :
    ∀ (l acc : List String), acc ⊆ l.foldl (dedupStep lib) acc := by
  intro l
  induction l with
  | nil => intro acc; simp
  | cons x xs ih =>
    intro acc
    exact fun a ha => ih (dedupStep lib acc x) (dedupStep_subset lib acc x ha)

/-- One dedup step preserves the pairwise-distance invariant. -/
theorem dedupStep_preserves (lib : ChromaLib)
    (hsym : ∀ a b, lib.deltaE a b = lib.deltaE b a)
    (acc : List String) (c : String)
    (hacc : ∀ a ∈ acc, ∀ b ∈ acc, a ≠ b → lib.parses a = true →
      lib.parses b = true → 15 ≤ lib.deltaE a b) :
    ∀ a ∈ dedupStep lib acc c, ∀ b ∈ dedupStep lib acc c, a ≠ b →
      lib.parses a = true → lib.parses b = true → 15 ≤ lib.deltaE a b := by
  unfold dedupStep
  by_cases h : acc.any (simPred lib c) = true
  · rw [if_pos h]; exact hacc
  · rw [if_neg h]
    have hnot : ∀ e ∈ acc, simPred lib c e = false := by
      intro e he
      cases hq : simPred lib c e
      · rfl
      · exact absurd (List.any_eq_true.mpr ⟨e, he, hq⟩) h
    intro a ha b hb hne hpa hpb
    rcases List.mem_append.mp ha with ha' | ha'
    · rcases List.mem_append.mp hb with hb' | hb'
      · exact hacc a ha' b hb' hne hpa hpb
      · have hbc : b = c := by simpa using hb'
        subst hbc
        have hge := simPred_false_ge lib (hnot a ha') hpb hpa
        calc (15 : ℚ) ≤ lib.deltaE b a := hge
          _ = lib.deltaE a b := hsym b a
    · have hac : a = c := by simpa using ha'
      subst hac
      rcases List.mem_append.mp hb with hb' | hb'
      · exact simPred_false_ge lib (hnot b hb') hpa hpb
      · have hbc : b = a := by simpa using hb'
        exact absurd hbc.symm hne

/-- The pairwise-distance invariant holds at the end of the greedy pass. -/
theorem foldl_dedup_inv (lib : ChromaLib)
    (hsym : ∀ a b, lib.deltaE a b = lib.deltaE b a) :
    ∀ (l acc : List String),
      (∀ a ∈ acc, ∀ b ∈ acc, a ≠ b → lib.parses a = true →
        lib.parses b = true → 15 ≤ lib.deltaE a b) →
      ∀ a ∈ l.foldl (dedupStep lib) acc, ∀ b ∈ l.foldl (dedupStep lib) acc,
        a ≠ b → lib.parses a = true → lib.parses b = true →
        15 ≤ lib.deltaE a b := by
  intro l
  induction l with
  | nil => intro acc h; simpa using h
  | cons x xs ih =>
    intro acc h
    simp only [List.foldl_cons]
    exact ih _ (dedupStep_preserves lib hsym acc x h)

/-- A candidate that never makes it into the accepted list was similar to
some color of the final accepted list. -/
theorem foldl_dedup_dropped (lib : ChromaLib) :
    ∀ (l acc : List String) (c : String), c ∈ l →
      c ∉ l.foldl (dedupStep lib) acc →
      ∃ e ∈ l.foldl (dedupStep lib) acc, simPred lib c e = true := by
  intro l
  induction l with
  | nil => intro acc c hc; simp at hc
  | cons x xs ih =>
    intro acc c hc hnot
    simp only [List.foldl_cons] at hnot ⊢
    rcases List.mem_cons.mp hc with rfl | hc'
    · by_cases h : acc.any (simPred lib c) = true
      · obtain ⟨e, he, hpe⟩ := List.any_eq_true.mp h
        refine ⟨e, ?_, hpe⟩
        apply foldl_dedup_subset lib xs (dedupStep lib acc c)
        unfold dedupStep
        rw [if_pos h]
        exact he
      · exfalso
        apply hnot
        apply foldl_dedup_subset lib xs (dedupStep lib acc c)
        unfold dedupStep
        rw [if_neg h]
        exact List.mem_append_right acc (by simp)
    · exact ih _ c hc' hnot

/-- C3: in the `all` sequence produced by `processColors`, any two distinct
parseable colors are at perceptual distance at least 15 (the threshold
`0.15 * 100`), given that the distance function is symmetric; and a
candidate of the frequency-sorted input that was dropped is within distance
15 of some accepted (parseable) color. -/
theorem processColors_dedup_invariant (lib : ChromaLib)
    (hsym : ∀ a b, lib.deltaE a b = lib.deltaE b a) (m : FreqMap) :
    (∀ a ∈ processColors lib m, ∀ b ∈ processColors lib m, a ≠ b →
        lib.parses a = true → lib.parses b = true → 15 ≤ lib.deltaE a b) ∧
    (∀ c ∈ (sortDesc m).map Prod.fst, c ∉ processColors lib m →
        ∃ e ∈ processColors lib m,
          lib.parses c = true ∧ lib.parses e = true ∧ lib.deltaE c e < 15) := by
  constructor
  · exact foldl_dedup_inv lib hsym ((sortDesc m).map Prod.fst) [] (by simp)
  · intro c hc hnc
    obtain ⟨e, he, hp⟩ := foldl_dedup_dropped lib ((sortDesc m).map Prod.fst) [] c hc hnc
    exact ⟨e, he, (simPred_eq_true_iff lib c e).mp hp⟩

/-- Witness for C3 at a concrete input: in the map
`[(red,3), (red2,2), (blue,1)]` the accepted colors `red` and `blue` are at
distance ≥ 15, and the dropped `red2` is within 15 of an accepted color. -/
theorem processColors_dedup_invariant_witness :
    (15 ≤ testLib.deltaE "red" "blue") ∧
    (∃ e ∈ processColors testLib [("red", 3), ("red2", 2), ("blue", 1)],
      testLib.parses "red2" = true ∧ testLib.parses e = true ∧
        testLib.deltaE "red2" e < 15) :=
  ⟨(processColors_dedup_invariant testLib (fun a b => tDelta_symm a b)
      [("red", 3), ("red2", 2), ("blue", 1)]).1 "red"
      (by with_unfolding_all decide) "blue" (by with_unfolding_all decide)
      (by decide) rfl rfl,
   (processColors_dedup_invariant testLib (fun a b => tDelta_symm a b)
      [("red", 3), ("red2", 2), ("blue", 1)]).2 "red2"
      (by with_unfolding_all decide) (by with_unfolding_all decide)⟩

/-! ### C4: determinism of `analyzeWebsite` -/

/-- A document with no elements, links or comments. -/
def emptyDoc : Doc :=
  { elements := [], styleLinks := [], comments := [], viewportMeta := none }

/-- C4 counterexample: two calls on the same unchanged document tree are
*not* byte-identical, because the result embeds the wall-clock `timestamp`
of each call. -/
theorem analyze_not_byte_identical_cex :
    analyzeWebsite testLib "https://example.com" emptyDoc
        "2024-01-01T00:00:00.000Z" ≠
      analyzeWebsite testLib "https://example.com" emptyDoc
        "2024-01-01T00:00:01.000Z" := by
  intro h
  have ht := congrArg SiteAnalysis.timestamp h
  simp [analyzeWebsite] at ht

/-- C4 amended: the analysis is deterministic in the document tree — the
`url`, `colors`, `typography`, `components` and `layout` fields of two runs
on the same tree coincide; only the `timestamp` field records the call
time. -/
theorem analyze_deterministic_except_timestamp (lib : ChromaLib) (url : String)
    (doc : Doc) (t1 t2 : String) :
    (analyzeWebsite lib url doc t1).url = (analyzeWebsite lib url doc t2).url ∧
    (analyzeWebsite lib url doc t1).colors = (analyzeWebsite lib url doc t2).colors ∧
    (analyzeWebsite lib url doc t1).typography =
      (analyzeWebsite lib url doc t2).typography ∧
    (analyzeWebsite lib url doc t1).components =
      (analyzeWebsite lib url doc t2).components ∧
    (analyzeWebsite lib url doc t1).layout = (analyzeWebsite lib url doc t2).layout :=
  ⟨rfl, rfl, rfl, rfl, rfl⟩

/-! ### C6: framework confidence -/

/-- `Math.round(m / t * 100)` of a ratio of naturals with `m ≤ t` lies in
`0..100`. -/
theorem jsRound_nat_div_bounds (mN t : ℕ) (h : mN ≤ t) :
    0 ≤ jsRound ((mN : ℚ) * 100 / (t : ℚ)) ∧
    jsRound ((mN : ℚ) * 100 / (t : ℚ)) ≤ 100 := by
  rcases Nat.eq_zero_or_pos t with ht | ht
  · subst ht
    have hm : mN = 0 := Nat.le_zero.mp h
    subst hm
    constructor <;> with_unfolding_all decide
  · have htq : (0 : ℚ) < (t : ℚ) := by exact_mod_cast ht
    have hmq : (mN : ℚ) ≤ (t : ℚ) := by exact_mod_cast h
    have hq0 : (0 : ℚ) ≤ (mN : ℚ) * 100 / (t : ℚ) := by positivity
    have hq1 : (mN : ℚ) * 100 / (t : ℚ) ≤ 100 := by
      rw [div_le_iff₀ htq]
      nlinarith
    constructor
    · exact Int.floor_nonneg.mpr (by linarith)
    · have hlt : jsRound ((mN : ℚ) * 100 / (t : ℚ)) < 101 := by
        unfold jsRound
        rw [Int.floor_lt]
        push_cast
        linarith
      omega

/-- The Scenario D query: a document matching exactly four of the eight
Bootstrap checklist selectors. -/
def scenarioDQuery : String → Bool := fun s =>
  s == ".container" || s == ".row" || s == ".col" || s == ".navbar"

/-- The Bootstrap selector checklist (8 selectors). -/
def bootstrapSelectors : List String :=
  [".container", ".row", ".col", ".navbar", ".card", ".btn", ".alert", ".badge"]

/-- C6: for every framework of the fixed checklist and every document,
`confidencePercent` is the rounded percentage of matched checklist
selectors, lies in `0..100`, and `detected` holds iff it exceeds 30;
moreover a document matching 4 of the 8 Bootstrap selectors scores exactly
50 and is detected. -/
theorem framework_confidence_spec (q : String → Bool) (name : String)
    (sels : List String) (_hmem : (name, sels) ∈ cssFrameworkChecklist) :
    frameworkConfidence q sels =
      jsRound ((countMatchedSelectors q sels : ℚ) * 100 / (sels.length : ℚ)) ∧
    0 ≤ frameworkConfidence q sels ∧ frameworkConfidence q sels ≤ 100 ∧
    (frameworkDetected q sels = true ↔ 30 < frameworkConfidence q sels) ∧
    frameworkConfidence scenarioDQuery bootstrapSelectors = 50 ∧
    frameworkDetected scenarioDQuery bootstrapSelectors = true := by
  have hle : countMatchedSelectors q sels ≤ sels.length := by
    unfold countMatchedSelectors
    exact List.length_filter_le q sels
  have hb := jsRound_nat_div_bounds (countMatchedSelectors q sels) sels.length hle
  refine ⟨rfl, hb.1, hb.2, ?_, ?_, ?_⟩
  · unfold frameworkDetected
    exact decide_eq_true_iff
  · with_unfolding_all decide
  · with_unfolding_all decide

/-- Witness for C6: the Bootstrap entry of the checklist at the Scenario D
query. -/
theorem framework_confidence_spec_witness :
    frameworkConfidence scenarioDQuery bootstrapSelectors = 50 ∧
    (frameworkDetected scenarioDQuery bootstrapSelectors = true ↔
      30 < frameworkConfidence scenarioDQuery bootstrapSelectors) :=
  ⟨(framework_confidence_spec scenarioDQuery "bootstrap" bootstrapSelectors
      (by decide)).2.2.2.2.1,
   (framework_confidence_spec scenarioDQuery "bootstrap" bootstrapSelectors
      (by decide)).2.2.2.1⟩

/-! ### C8: first-match priority of the font-family rule table -/

/-- `find?` returns the element at the first index whose predicate holds. -/
theorem find?_eq_of_first {α : Type} (p : α → Bool) :
    ∀ (l : List α) (i : ℕ) (x : α), l.get? i = some x → p x = true →
      (∀ j, j < i → (l.get? j).all (fun y => !p y) = true) →
      l.find? p = some x := by
  intro l
  induction l with
  | nil => intro i x hx _ _; simp at hx
  | cons a as ih =>
    intro i x hx hpx hbefore
    cases i with
    | zero =>
      have hax : a = x := by simpa using hx
      subst hax
      exact List.find?_cons_of_pos as hpx
    | succ i' =>
      have h0 := hbefore 0 (Nat.succ_pos i')
      have hpa : p a = false := by simpa using h0
      rw [List.find?_cons_of_neg as (by simp [hpa])]
      refine ih i' x (by simpa using hx) hpx ?_
      intro j hj
      have := hbefore (j + 1) (Nat.succ_lt_succ hj)
      simpa using this

/-- C8: `normalizeFontFamily` strips quotes and whitespace, then the first
matching rule of the ordered pattern table determines the output; a string
matching no rule passes through with only the stripping applied. -/
theorem normalizeFontFamily_first_match (s : String) :
    ((∀ p ∈ fontFamilyPatterns, patTest p.1 (stripQuotesTrim s) = false) →
      normalizeFontFamily s = stripQuotesTrim s) ∧
    (∀ i rule, fontFamilyPatterns.get? i = some rule →
      patTest rule.1 (stripQuotesTrim s) = true →
      (∀ j, j < i →
        (fontFamilyPatterns.get? j).all
          (fun q => !patTest q.1 (stripQuotesTrim s)) = true) →
      normalizeFontFamily s = rule.2) := by
  constructor
  · intro hnone
    have hfind : fontFamilyPatterns.find?
        (fun p => patTest p.1 (stripQuotesTrim s)) = none :=
      List.find?_eq_none.mpr (fun x hx => by simp [hnone x hx])
    simp only [normalizeFontFamily, hfind]
  · intro i rule hget hp hbefore
    have hfind : fontFamilyPatterns.find?
        (fun p => patTest p.1 (stripQuotesTrim s)) = some rule :=
      find?_eq_of_first _ fontFamilyPatterns i rule hget hp hbefore
    simp only [normalizeFontFamily, hfind]

/-- Witness for C8: `"Times New Roman"` (quoted, padded) matches both the
`times new roman` rule (index 2) and the later `times` and `serif` rules;
the earliest rule wins. -/
theorem normalizeFontFamily_first_match_witness :
    normalizeFontFamily " \"Times New Roman\" " = "Times New Roman, serif" :=
  (normalizeFontFamily_first_match " \"Times New Roman\" ").2 2
    ("times new roman", "Times New Roman, serif") (by decide) (by decide)
    (fun j hj => by interval_cases j <;> decide)

/-! ### C9: Google-Fonts links weigh ten normal occurrences -/

/-- `lookupCount` on a cons. -/
theorem lookupCount_cons (p : String × Nat) (ps : FreqMap) (k : String) :
    lookupCount (p :: ps) k = if p.1 == k then p.2 else lookupCount ps k := by
  unfold lookupCount
  cases hp : (p.1 == k) <;> simp [List.find?_cons, hp]

/-- Bumping a key present in the map raises that key's count by the
weight. -/
theorem lookupCount_map_bump (k : String) (w : Nat) :
    ∀ m : FreqMap, m.any (fun p => p.1 == k) = true →
      lookupCount (m.map (fun p => if p.1 == k then (p.1, p.2 + w) else p)) k =
        lookupCount m k + w := by
  intro m
  induction m with
  | nil => intro h; simp at h
  | cons p ps ih =>
    intro h
    by_cases hp : (p.1 == k) = true
    · rw [List.map_cons, if_pos hp, lookupCount_cons, lookupCount_cons]
      simp [hp]
    · have hpf : (p.1 == k) = false := by simpa using hp
      have h' : ps.any (fun p => p.1 == k) = true := by
        rw [List.any_cons, hpf] at h
        simpa using h
      rw [List.map_cons, if_neg hp, lookupCount_cons, lookupCount_cons, hpf]
      simpa using ih h'

/-- Appending a fresh key gives it exactly the weight. -/
theorem lookupCount_append_new (k : String) (w : Nat) :
    ∀ m : FreqMap, m.any (fun p => p.1 == k) = false →
      lookupCount (m ++ [(k, w)]) k = lookupCount m k + w := by
  intro m
  induction m with
  | nil =>
    intro _
    simp [lookupCount_cons, lookupCount]
  | cons p ps ih =>
    intro h
    have hpf : (p.1 == k) = false := by
      cases hq : (p.1 == k)
      · rfl
      · rw [List.any_cons, hq] at h
        simp at h
    have h' : ps.any (fun p => p.1 == k) = false := by
      rw [List.any_cons, hpf] at h
      simpa using h
    rw [List.cons_append, lookupCount_cons, lookupCount_cons, hpf]
    simpa using ih h'

/-- `bump` adds exactly the weight to the bumped key. -/
theorem lookupCount_bump (m : FreqMap) (k : String) (w : Nat) :
    lookupCount (bump m k w) k = lookupCount m k + w := by
  unfold bump
  by_cases h : m.any (fun p => p.1 == k) = true
  · rw [if_pos h]
    exact lookupCount_map_bump k w m h
  · rw [if_neg h]
    exact lookupCount_append_new k w m (Bool.eq_false_iff.mpr h)

/-- The document of Scenario B: a single Google-Fonts stylesheet link for
Roboto and no other font signal. -/
def robotoDoc : Doc :=
  { elements := [],
    styleLinks := ["https://fonts.googleapis.com/css2?family=Roboto&display=swap"],
    comments := [],
    viewportMeta := none }

/-- C9: a stylesheet link matching the Google-Fonts pattern contributes its
extracted family (pluses to spaces, then normalized) at weight 10 — ten
normal occurrences — and the Scenario B document yields exactly
`Roboto, sans-serif` at rank 1 with weight 10. -/
theorem googleFonts_link_weight :
    (∀ (m : FreqMap) (href : String) (fam : List Char),
      containsStr href "fonts.googleapis.com" = true →
      extractFamilyParam href.data = some fam →
      lookupCount (collectLinkFonts m href)
          (normalizeFontFamily
            (String.mk (fam.map (fun c => if c == '+' then ' ' else c)))) =
        lookupCount m
          (normalizeFontFamily
            (String.mk (fam.map (fun c => if c == '+' then ' ' else c)))) + 10) ∧
    (extractTypography robotoDoc).fontFamilies = [⟨"Roboto, sans-serif", 10⟩] := by
  constructor
  · intro m href fam hc hf
    unfold collectLinkFonts
    rw [hc, hf]
    simp only [if_true]
    exact lookupCount_bump m _ 10
  · with_unfolding_all decide

/-- Witness for C9 at the Scenario B link and an empty prior map. -/
theorem googleFonts_link_weight_witness :
    lookupCount
        (collectLinkFonts []
          "https://fonts.googleapis.com/css2?family=Roboto&display=swap")
        (normalizeFontFamily
          (String.mk ("Roboto".data.map (fun c => if c == '+' then ' ' else c)))) =
      lookupCount []
        (normalizeFontFamily
          (String.mk ("Roboto".data.map (fun c => if c == '+' then ' ' else c)))) + 10 :=
  googleFonts_link_weight.1 []
    "https://fonts.googleapis.com/css2?family=Roboto&display=swap"
    "Roboto".data (by decide) (by decide)

/-! ### C7: aggregation color selection -/

/-- A `SiteAnalysis` with every pool empty, used as a base for concrete
aggregation inputs. -/
def emptyAnalysis : SiteAnalysis :=
  { url := "",
    colors := ⟨[], [], [], [], []⟩,
    typography := ⟨[], [], [], [], [], [], [], none, none, none, none, none, none⟩,
    components := [],
    layout :=
      { patterns := [],
        frameworks := [],
        responsive := ⟨false, [], none⟩,
        pageStructure := ⟨false, false, false, false, false, 0⟩ },
    timestamp := "" }

/-- An analysis whose neutral pool is empty while its `all` pool holds one
mid-luminance color. -/
def cexNeutralAnalysis : SiteAnalysis :=
  { emptyAnalysis with colors := ⟨[], [], [], [], ["mid"]⟩ }

/-- C7 counterexample: when the flattened neutral pool is empty, the code
does *not* fall back to the flattened all-colors pool — it falls back to
that pool filtered to extreme luminance (> 0.8 or < 0.2), so a mid-luminance
color is selected by the claimed rule but not by the code. -/
theorem neutral_fallback_filters_luminance_cex :
    (generateStyleGuide testLib [cexNeutralAnalysis]).colors.palette.neutral ≠
      selectMostCommon ([cexNeutralAnalysis].flatMap (fun a => a.colors.all)) 4 := by
  with_unfolding_all decide

/-- Scenario E, first analysis: primary pool `[A, A, B]`. -/
def scenEAnalysis1 : SiteAnalysis :=
  { emptyAnalysis with colors := ⟨["A", "A", "B"], [], [], [], []⟩ }

/-- Scenario E, second analysis: primary pool `[A, C]`. -/
def scenEAnalysis2 : SiteAnalysis :=
  { emptyAnalysis with colors := ⟨["A", "C"], [], [], [], []⟩ }

/-- C7 amended: the palette takes the top 3/3/2/4 of a global frequency
recount over the flattened per-category pools, falling back for an empty
pool to the flattened all-colors pool (offset by 3 for secondary and 6 for
accent) — except that the neutral fallback is that pool filtered to extreme
luminance.  Merging primary pools `[A,A,B]` and `[A,C]` recounts `A` to 3,
so `A` is selected first. -/
theorem colorPalette_aggregation_spec (lib : ChromaLib)
    (analyses : List SiteAnalysis) :
    ((generateStyleGuide lib analyses).colors.palette =
      { primary := selectMostCommon
          (if (analyses.flatMap (fun a => a.colors.primary)).isEmpty then
            analyses.flatMap (fun a => a.colors.all)
          else analyses.flatMap (fun a => a.colors.primary)) 3,
        secondary := selectMostCommon
          (if (analyses.flatMap (fun a => a.colors.secondary)).isEmpty then
            (analyses.flatMap (fun a => a.colors.all)).drop 3
          else analyses.flatMap (fun a => a.colors.secondary)) 3,
        accent := selectMostCommon
          (if (analyses.flatMap (fun a => a.colors.accent)).isEmpty then
            (analyses.flatMap (fun a => a.colors.all)).drop 6
          else analyses.flatMap (fun a => a.colors.accent)) 2,
        neutral := selectMostCommon
          (if (analyses.flatMap (fun a => a.colors.neutral)).isEmpty then
            (analyses.flatMap (fun a => a.colors.all)).filter (fun c =>
              if lib.parses c then
                decide ((4 : ℚ) / 5 < lib.luminance c) ||
                  decide (lib.luminance c < (1 : ℚ) / 5)
              else false)
          else analyses.flatMap (fun a => a.colors.neutral)) 4 }) ∧
    (generateStyleGuide testLib [scenEAnalysis1, scenEAnalysis2]).colors.palette.primary =
      ["A", "B", "C"] ∧
    ((generateStyleGuide testLib
        [scenEAnalysis1, scenEAnalysis2]).colors.palette.primary).head? = some "A" := by
  refine ⟨rfl, ?_, ?_⟩ <;> with_unfolding_all decide

end WSA
